import Mathlib

/-!
Verification development for the PharmaDB front end (`pharma-frontend`):
a shallow embedding of the CSV bulk-import and tabular-data flow — the
client-side CSV parser, the sample-template engine, the entry-table
request construction, and the add-entry orchestration of
`src/pharma-frontend/src/components/InlineAddEntry.tsx` and the domain
view — together with theorems about its behaviour.

JS strings are modelled as `String` at the interface, with the character
level operations (`split`, `trim`, the quote-stripping regex) carried out
on `List Char` by structural recursion so that every definition is
executable and kernel-reducible.
-/

namespace Pharma

/-- JS `String.prototype.split(sep)` for a one-character separator:
split at every occurrence of `sep`, keeping empty segments (`""` gives
one empty segment, `"a,"` gives two segments). -/
def splitChar (sep : Char) : List Char → List (List Char)
  | [] => [[]]
  | c :: cs =>
    let r := splitChar sep cs
    if c = sep then
      [] :: r
    else
      match r with
      | [] => [[c]]
      | g :: gs => (c :: g) :: gs

/-- JS `String.prototype.trim()`: remove leading and trailing whitespace
characters. -/
def trimChars (cs : List Char) : List Char :=
  ((cs.dropWhile Char.isWhitespace).reverse.dropWhile Char.isWhitespace).reverse

/-- The `^"` alternative of the regex `/^"|"$/g`: remove one leading
double quote, when present. -/
def stripLead (cs : List Char) : List Char :=
  match cs with
  | '"' :: rest => rest
  | _ => cs

/-- The `"$` alternative of the regex `/^"|"$/g`: remove one trailing
double quote, when present. -/
def stripTrail (cs : List Char) : List Char :=
  if cs.getLast? = some '"' then cs.dropLast else cs

/-- The per-field transform of `parseCsvFile`
(`InlineAddEntry.tsx` lines 128 and 130):
`v.trim().replace(/^"|"$/g, '')`.  The regex removes one leading double
quote and one trailing double quote, each independently; composing
`stripLead` then `stripTrail` agrees with it on every string, including
the single-quote string, which the regex consumes as a leading quote. -/
def cleanField (s : String) : String :=
  ⟨stripTrail (stripLead (trimChars s.data))⟩

/-- Splitting one CSV line
(`line.split(',').map(v => v.trim().replace(/^"|"$/g, ''))`). -/
def splitFields (line : List Char) : List String :=
  (splitChar ',' line).map (fun f => ⟨stripTrail (stripLead (trimChars f))⟩)

/-- The line preprocessing of `parseCsvFile` (line 122):
`text.split('\n').filter(line => line.trim())` — split on newline and
keep only the lines that are non-empty after trimming (the only falsy JS
string is the empty string). -/
def nonBlankLines (text : String) : List (List Char) :=
  (splitChar '\n' text.data).filter (fun l => !(trimChars l).isEmpty)

/-- A parsed row: column name to string value, in header order.  The JS
code builds an object via `row[header] = values[index] || ''`; we keep
the header-indexed entries as an association list. -/
abbrev Row := List (String × String)

/-- Reading a key from a row, with JS object semantics: for a duplicated
key the last assignment wins. -/
def rowGet (r : Row) (k : String) : Option String :=
  r.reverse.lookup k

/-- Zipping the headers against the fields of one data line
(`parseCsvFile` lines 131-135):
`headers.forEach((header, index) => { row[header] = values[index] || '' })`.
Header `i` is paired with value `i`; a missing value (data line shorter
than the header) and an empty value both give `""` (JS `undefined || ''`
and `'' || ''` are both `''`); values beyond the header count are never
read. -/
def buildRow : List String → List String → Row
  | [], _ => []
  | h :: hs, [] => (h, "") :: buildRow hs []
  | h :: hs, v :: vs => (h, v) :: buildRow hs vs

/-- Parse-time failure of `parseCsvFile`: fewer than two non-blank lines
(`'CSV file must have at least a header row and one data row'`). -/
inductive ParseError where
  | MalformedFile
deriving DecidableEq

/-- The parser body of `parseCsvFile` (`InlineAddEntry.tsx` lines
116-145): split the text into non-blank lines; reject with
`MalformedFile` when fewer than 2 remain; otherwise the first line,
field-split, is the header and every later line becomes one row. -/
def parseCsvText (text : String) : Except ParseError (List Row) :=
  let lines := nonBlankLines text
  if lines.length < 2 then
    Except.error ParseError.MalformedFile
  else
    let headers := splitFields (lines.headD [])
    Except.ok ((lines.drop 1).map (fun line => buildRow headers (splitFields line)))

/-- One entry of `CSV_TEMPLATES` in
`src/pharma-frontend/src/utils/csvTemplates.ts`. -/
structure CsvTemplate where
  headers : List String
  sampleData : List (List String)
  filename : String

/-- The static template catalog `CSV_TEMPLATES` of `csvTemplates.ts`
(lines 1-90), as a lookup from list-type name to template. -/
def CSV_TEMPLATES (listType : String) : Option CsvTemplate :=
  if listType = "Target Lists" then some
    { headers := ["hcp_id", "hcp_name", "specialty", "territory", "tier"]
    , sampleData :=
        [ ["HCP001", "Dr. Rajesh Kumar", "Cardiology", "North Delhi", "A"]
        , ["HCP002", "Dr. Priya Sharma", "Neurology", "South Mumbai", "A"]
        , ["HCP003", "Dr. Amit Patel", "Orthopedics", "East Bangalore", "B"]
        , ["HCP004", "Dr. Sneha Reddy", "Oncology", "West Delhi", "A"]
        , ["HCP005", "Dr. Vikram Singh", "Gastroenterology", "Central Gurugram", "B"] ]
    , filename := "target_lists_sample.csv" }
  else if listType = "Call Lists" then some
    { headers := ["hcp_id", "hcp_name", "call_date", "sales_rep", "status"]
    , sampleData :=
        [ ["HCP001", "Dr. Rajesh Kumar", "2025-11-01", "Arjun Kapoor", "Scheduled"]
        , ["HCP002", "Dr. Priya Sharma", "2025-11-02", "Pooja Singh", "Scheduled"]
        , ["HCP003", "Dr. Amit Patel", "2025-11-03", "Ravi Verma", "Pending"]
        , ["HCP004", "Dr. Sneha Reddy", "2025-11-04", "Neha Agarwal", "Scheduled"]
        , ["HCP005", "Dr. Vikram Singh", "2025-11-05", "Rahul Joshi", "Completed"] ]
    , filename := "call_lists_sample.csv" }
  else if listType = "Formulary Decision-Maker Lists" then some
    { headers := ["contact_id", "contact_name", "organization", "email", "influence_level"]
    , sampleData :=
        [ ["FDM001", "Dr. Rajiv Malhotra", "Max Healthcare", "rajiv.malhotra@max.com", "High"]
        , ["FDM002", "Dr. Sunita Verma", "Apollo Hospitals", "sunita.verma@apollo.com", "High"]
        , ["FDM003", "Mr. Anil Chopra", "Fortis Healthcare", "anil.chopra@fortis.com", "Medium"]
        , ["FDM004", "Dr. Kiran Patel", "Medanta Hospital", "kiran.patel@medanta.com", "High"]
        , ["FDM005", "Ms. Rekha Nair", "AIIMS Delhi", "rekha.nair@aiims.edu", "High"] ]
    , filename := "formulary_decision_maker_lists_sample.csv" }
  else if listType = "IDN/Health System Lists" then some
    { headers := ["system_id", "system_name", "contact_name", "contact_email", "importance"]
    , sampleData :=
        [ ["IDN001", "Apollo Hospitals Group", "Dr. Ravi Shankar", "ravi.shankar@apollo.com", "Tier 1"]
        , ["IDN002", "Fortis Healthcare Network", "Ms. Priya Mathur", "priya.mathur@fortis.com", "Tier 1"]
        , ["IDN003", "Max Healthcare System", "Mr. Sandeep Gupta", "sandeep.gupta@max.com", "Tier 2"]
        , ["IDN004", "Medanta Network", "Dr. Arvind Kumar", "arvind.kumar@medanta.com", "Tier 1"]
        , ["IDN005", "Narayana Health Group", "Dr. Lakshmi Rao", "lakshmi.rao@narayana.com", "Tier 2"] ]
    , filename := "idn_health_system_lists_sample.csv" }
  else if listType = "Event Invitation Lists" then some
    { headers := ["event_name", "event_date", "invitee_id", "invitee_name", "email", "status"]
    , sampleData :=
        [ ["Cardiology Summit 2025", "2025-12-15", "HCP001", "Dr. Rajesh Kumar", "rajesh.kumar@apollo.com", "Invited"]
        , ["Neurology Conference", "2025-12-20", "HCP002", "Dr. Priya Sharma", "priya.sharma@fortis.com", "Confirmed"]
        , ["Oncology Workshop", "2026-01-10", "HCP004", "Dr. Sneha Reddy", "sneha.reddy@aiims.edu", "Invited"]
        , ["Gastro Symposium", "2026-01-25", "HCP005", "Dr. Vikram Singh", "vikram.singh@medanta.com", "Pending"]
        , ["Endocrine Conclave", "2026-02-05", "HCP006", "Dr. Ananya Iyer", "ananya.iyer@apollo.com", "Confirmed"] ]
    , filename := "event_invitation_lists_sample.csv" }
  else if listType = "Digital Engagement Lists" then some
    { headers := ["contact_id", "contact_name", "email", "specialty", "opt_in"]
    , sampleData :=
        [ ["DG001", "Dr. Rajesh Kumar", "rajesh.kumar@apollo.com", "Cardiology", "TRUE"]
        , ["DG002", "Dr. Priya Sharma", "priya.sharma@fortis.com", "Neurology", "TRUE"]
        , ["DG003", "Dr. Amit Patel", "amit.patel@max.com", "Orthopedics", "FALSE"]
        , ["DG004", "Dr. Sneha Reddy", "sneha.reddy@aiims.edu", "Oncology", "TRUE"]
        , ["DG005", "Dr. Vikram Singh", "vikram.singh@medanta.com", "Gastroenterology", "TRUE"] ]
    , filename := "digital_engagement_lists_sample.csv" }
  else if listType = "High-Value Prescriber Lists" then some
    { headers := ["hcp_id", "hcp_name", "specialty", "territory", "total_prescriptions", "revenue", "value_tier"]
    , sampleData :=
        [ ["HCP001", "Dr. Rajesh Kumar", "Cardiology", "North Delhi", "850", "125000.50", "Platinum"]
        , ["HCP002", "Dr. Priya Sharma", "Neurology", "South Mumbai", "720", "98000.75", "Gold"]
        , ["HCP003", "Dr. Amit Patel", "Orthopedics", "East Bangalore", "550", "72000.00", "Gold"]
        , ["HCP004", "Dr. Sneha Reddy", "Oncology", "West Delhi", "920", "145000.25", "Platinum"]
        , ["HCP005", "Dr. Vikram Singh", "Gastroenterology", "Central Gurugram", "480", "65000.00", "Silver"] ]
    , filename := "high_value_prescriber_lists_sample.csv" }
  else if listType = "Competitor Target Lists" then some
    { headers := ["hcp_id", "hcp_name", "specialty", "territory", "competitor_product", "conversion_potential", "assigned_rep"]
    , sampleData :=
        [ ["HCP011", "Dr. Ramesh Patel", "Cardiology", "North Delhi", "CompetitorX CardioMed", "High", "Arjun Kapoor"]
        , ["HCP012", "Dr. Lakshmi Menon", "Neurology", "South Mumbai", "CompetitorY NeuroPlus", "Medium", "Pooja Singh"]
        , ["HCP013", "Dr. Sunil Reddy", "Orthopedics", "East Bangalore", "CompetitorZ BoneCare", "High", "Ravi Verma"]
        , ["HCP014", "Dr. Anjali Desai", "Oncology", "West Delhi", "CompetitorX OncoMax", "High", "Neha Agarwal"]
        , ["HCP015", "Dr. Karthik Iyer", "Gastroenterology", "Central Gurugram", "CompetitorY GastroRelief", "Low", "Rahul Joshi"] ]
    , filename := "competitor_target_lists_sample.csv" }
  else none

/-- JS `Array.prototype.join(sep)` for a list of strings. -/
def joinStrings (sep : String) : List String → String
  | [] => ""
  | [s] => s
  | s :: rest => s ++ sep ++ joinStrings sep rest

/-- `arrayToCSV` of `csvTemplates.ts` (lines 92-95):
`[headers, ...data].map(row => row.join(',')).join('\n')`. -/
def arrayToCSV (headers : List String) (data : List (List String)) : String :=
  joinStrings "\n" ((headers :: data).map (joinStrings ","))

/-- Sample rendering as performed by `downloadSampleCSV` (lines 113-123):
look up the template for the list type and serialize headers plus sample
rows; `none` when the list type is absent from the catalog. -/
def renderSample (listType : String) : Option String :=
  (CSV_TEMPLATES listType).map (fun t => arrayToCSV t.headers t.sampleData)

/-- First line of a text (everything before the first newline). -/
def firstLine (s : String) : String :=
  ⟨(splitChar '\n' s.data).headD []⟩

/-- An HTTP request as observable by the backend: URL, header list and
JSON body (a record of string fields). -/
structure HttpRequest where
  url : String
  headers : List (String × String)
  body : List (String × String)
deriving DecidableEq

/-- The create-row request issued with `fetch` by `handleSave`
(`InlineAddEntry.tsx` lines 259-265) and by the per-row branch of
`handleCsvUpload` (lines 198-204): POST to
`http://localhost:8000/api/` + tableName with a literal
`Content-Type: application/json` header.  The fetch call never reads the
`sb_token` from local storage, so the built request is independent of
the `token` argument, which only records the storage state so that
claims about authorization can be stated. -/
def postEntryRequest (_token : Option String) (tableName : String)
    (data : List (String × String)) : HttpRequest :=
  { url := "http://localhost:8000/api/" ++ tableName
  , headers := [("Content-Type", "application/json")]
  , body := data }

/-- The list-scoped bulk upload request of `handleCsvUpload` (lines
163-166): POST of multipart form data to
`/api/lists/.../upload-csv`, with no explicit headers.  As with
`postEntryRequest`, the fetch call never reads the token. -/
def bulkUploadRequest (_token : Option String) (listId : Nat) : HttpRequest :=
  { url := "http://localhost:8000/api/lists/" ++ toString listId ++ "/upload-csv"
  , headers := []
  , body := [] }

/-- Setting a header key, overwriting any existing value (JS property
assignment on the axios headers object). -/
def setHeader (hs : List (String × String)) (k v : String) :
    List (String × String) :=
  hs.filter (fun p => !(p.1 == k)) ++ [(k, v)]

/-- The axios request interceptor of the shared HTTP client
(`src/unnamed/part_006` lines 6-12): when a token is in local storage,
set `config.headers.Authorization = 'Bearer ' + token`; otherwise pass
the request through unchanged. -/
def axiosAttachAuth (token : Option String) (req : HttpRequest) : HttpRequest :=
  match token with
  | some t => { req with headers := setHeader req.headers "Authorization" ("Bearer " ++ t) }
  | none => req

/-- `getEntryTableName` of the domain view (`src/unnamed/part_002`
lines 365-377): the fixed lookup from subdomain display name to backing
entry-table name, `null` (here `none`) for any other name. -/
def getEntryTableName (subdomainName : String) : Option String :=
  if subdomainName = "Target Lists" then some "target_list"
  else if subdomainName = "Call Lists" then some "call_list_entries"
  else if subdomainName = "Formulary Decision-Maker Lists" then some "formulary_decision_maker_entries"
  else if subdomainName = "IDN/Health System Lists" then some "idn_health_system_entries"
  else if subdomainName = "Event Invitation Lists" then some "event_invitation_entries"
  else if subdomainName = "Digital Engagement Lists" then some "digital_engagement_entries"
  else if subdomainName = "High-Value Prescriber Lists" then some "high_value_prescriber_entries"
  else if subdomainName = "Competitor Target Lists" then some "competitor_target_entries"
  else none

/-- The `tableName` prop the domain view passes to `InlineAddEntry`
(`src/unnamed/part_002` lines 733-740 and 818-820):
`getEntryTableName(selectedSubdomain.subdomain_name) || ''`. -/
def domainViewTableNameProp (subdomainName : String) : String :=
  (getEntryTableName subdomainName).getD ""

/-- The add mode of `InlineAddEntry` (`addMode` state). -/
inductive AddMode where
  | manual
  | csv
deriving DecidableEq

/-- Toast severity (`Toast` type field). -/
inductive ToastType where
  | success
  | error
  | warning
  | info
deriving DecidableEq

/-- The `InlineAddEntry` component state relevant to the add-entry
workflow: `isAdding`, `addMode`, `formData` and the current toast. -/
structure EntryState where
  isAdding : Bool
  addMode : Option AddMode
  formData : List (String × String)
  toast : Option (String × ToastType)
deriving DecidableEq

/-- The empty-field stripping applied before submission
(`Object.entries(row).filter(([_, value]) => value.trim() !== '')`,
`InlineAddEntry.tsx` lines 189-191 and 246-248). -/
def stripEmpty (r : List (String × String)) : List (String × String) :=
  r.filter (fun p => !(trimChars p.2.data).isEmpty)

/-- Backend outcome of a single create-row request, as observable to the
client: success, a non-success HTTP status with extracted error detail
(`errorData.detail`), or a thrown network error. -/
inductive ServerResp where
  | ok
  | rejected (detail : String)
  | netError (msg : String)
deriving DecidableEq

/-- `handleSave` of `InlineAddEntry.tsx` (lines 241-287): strip
empty-after-trim fields; when nothing remains, show the
`'Please fill in at least one field'` warning and make no request;
otherwise issue one create-row request; on success clear the form, leave
adding mode and show a success toast; on a server rejection or a network
error show the error and keep the form state.  Returns the new component
state together with the list of requests issued. -/
def handleSave (token : Option String) (tableName : String)
    (server : HttpRequest → ServerResp) (st : EntryState) :
    EntryState × List HttpRequest :=
  let dataToSend := stripEmpty st.formData
  if dataToSend.length = 0 then
    ({ st with toast := some ("Please fill in at least one field", ToastType.warning) }, [])
  else
    let req := postEntryRequest token tableName dataToSend
    match server req with
    | ServerResp.ok =>
        ({ st with toast := some ("Entry added successfully!", ToastType.success)
                 , isAdding := false
                 , formData := [] }, [req])
    | ServerResp.rejected detail =>
        ({ st with toast := some (detail, ToastType.error) }, [req])
    | ServerResp.netError msg =>
        ({ st with toast := some (msg, ToastType.error) }, [req])

/-- Backend outcome of one create-row request in the per-row CSV import
loop: `response.ok`, a non-ok response, or a thrown error (caught by the
per-row `catch`). -/
inductive RowResp where
  | ok
  | notOk
  | threw
deriving DecidableEq

/-- The running success/failure tally of the per-row CSV import
(`successCount` / `errorCount`). -/
structure Tally where
  success : Nat
  error : Nat
deriving DecidableEq

/-- One iteration of the per-row import loop of `handleCsvUpload`
(`InlineAddEntry.tsx` lines 186-216): strip empty fields; a row left
empty is counted as an error and skipped without a request; otherwise a
create-row request is issued and the server outcome for it (indexed by
how many requests were issued before) updates the tally; a thrown error
is caught and counted exactly like a non-ok response, and the loop
continues either way. -/
def csvStep (token : Option String) (tableName : String)
    (server : Nat → RowResp) (acc : Tally × List HttpRequest) (row : Row) :
    Tally × List HttpRequest :=
  let dataToSend := stripEmpty row
  if dataToSend.length = 0 then
    ({ acc.1 with error := acc.1.error + 1 }, acc.2)
  else
    let req := postEntryRequest token tableName dataToSend
    match server acc.2.length with
    | RowResp.ok => ({ acc.1 with success := acc.1.success + 1 }, acc.2 ++ [req])
    | RowResp.notOk => ({ acc.1 with error := acc.1.error + 1 }, acc.2 ++ [req])
    | RowResp.threw => ({ acc.1 with error := acc.1.error + 1 }, acc.2 ++ [req])

/-- The whole per-row import loop (the `listId`-less branch of
`handleCsvUpload`): fold `csvStep` over the parsed rows, starting from a
zero tally and no requests. -/
def handleCsvPerRow (token : Option String) (tableName : String)
    (server : Nat → RowResp) (rows : List Row) : Tally × List HttpRequest :=
  rows.foldl (csvStep token tableName server) (⟨0, 0⟩, [])

/-- The completion toast of the per-row import (`InlineAddEntry.tsx`
lines 218-225): a partial-success warning naming the failure count when
any row failed, a plain success message otherwise. -/
def completionToast (t : Tally) : String × ToastType :=
  if t.error > 0 then
    ("Uploaded " ++ toString t.success ++ " entries successfully. "
       ++ toString t.error ++ " entries failed.", ToastType.warning)
  else
    ("Successfully uploaded " ++ toString t.success ++ " entries!", ToastType.success)

/-- Number of `RowResp.ok` outcomes among the `n` consecutive server
outcomes starting at request index `start`. -/
def countOk (server : Nat → RowResp) : Nat → Nat → Nat
  | _, 0 => 0
  | start, n + 1 =>
      (if server start = RowResp.ok then 1 else 0) + countOk server (start + 1) n

/- ===================== helper lemmas ===================== -/

theorem buildRow_fst (headers vals : List String) :
    (buildRow headers vals).map Prod.fst = headers := by
  induction headers generalizing vals with
  | nil => simp [buildRow]
  | cons h hs ih => cases vals <;> simp [buildRow, ih]

theorem lookup_isSome_iff (k : String) (l : List (String × String)) :
    (l.lookup k).isSome ↔ k ∈ l.map Prod.fst := by
  induction l with
  | nil => simp [List.lookup]
  | cons p rest ih =>
    obtain ⟨k1, v1⟩ := p
    by_cases hk : k = k1
    · subst hk
      simp [List.lookup]
    · have hbeq : (k == k1) = false := beq_eq_false_iff_ne.mpr hk
      simp [List.lookup, hbeq, hk, ih]

theorem rowGet_isSome_iff (r : Row) (k : String) :
    (rowGet r k).isSome ↔ k ∈ r.map Prod.fst := by
  unfold rowGet
  rw [lookup_isSome_iff]
  simp [List.map_reverse]

theorem buildRow_length (headers vals : List String) :
    (buildRow headers vals).length = headers.length := by
  induction headers generalizing vals with
  | nil => simp [buildRow]
  | cons h hs ih => cases vals <;> simp [buildRow, ih]

theorem buildRow_getD_missing (headers vals : List String) (i : Nat)
    (hi : i < headers.length) (hv : vals.length ≤ i) :
    (buildRow headers vals).getD i ("", "") = (headers.getD i "", "") := by
  induction headers generalizing vals i with
  | nil => simp at hi
  | cons h hs ih =>
    cases vals with
    | nil =>
      cases i with
      | zero => simp [buildRow]
      | succ n => simpa [buildRow] using ih [] n (by simpa using hi) (by simp)
    | cons v vs =>
      cases i with
      | zero => simp at hv
      | succ n =>
        simpa [buildRow] using ih vs n (by simpa using hi) (by simpa using hv)

theorem buildRow_take (headers vals : List String) :
    buildRow headers vals = buildRow headers (vals.take headers.length) := by
  induction headers generalizing vals with
  | nil => simp [buildRow]
  | cons h hs ih =>
    cases vals with
    | nil => simp [buildRow]
    | cons v vs => simp [buildRow, ih vs]

/- ===================== claim theorems: parser ===================== -/

/-- C1: for every CSV text the parser accepts, it produces exactly one
row-mapping per data line (non-blank line after the header), in original
file order (row `i` is built from data line `i` against the header line),
and every row-mapping contains every header key. -/
theorem parser_row_count_order_keys (text : String) (rows : List Row)
    (h : parseCsvText text = Except.ok rows) :
    rows.length = (nonBlankLines text).length - 1 ∧
    (∀ i, ∀ hi : i < rows.length, ∀ hj : i < ((nonBlankLines text).drop 1).length,
        rows.get ⟨i, hi⟩ =
          buildRow (splitFields ((nonBlankLines text).headD []))
            (splitFields (((nonBlankLines text).drop 1).get ⟨i, hj⟩))) ∧
    (∀ r ∈ rows, ∀ k ∈ splitFields ((nonBlankLines text).headD []),
        (rowGet r k).isSome) := by
  unfold parseCsvText at h
  by_cases hlen : (nonBlankLines text).length < 2
  · simp [hlen] at h
  · simp only [hlen, if_false, Except.ok.injEq] at h
    subst h
    refine ⟨by simp, ?_, ?_⟩
    · intro i hi hj
      simp [List.get_eq_getElem, List.getElem_map]
    · intro r hr k hk
      obtain ⟨line, hline, rfl⟩ := List.mem_map.mp hr
      rw [rowGet_isSome_iff, buildRow_fst]
      exact hk

/-- C1 witness: a concrete two-data-line CSV. -/
theorem parser_row_count_order_keys_witness :
    parseCsvText "hcp_id,hcp_name\nHCP1,Dr. A\nHCP2,Dr. B" = Except.ok
        [[("hcp_id", "HCP1"), ("hcp_name", "Dr. A")],
         [("hcp_id", "HCP2"), ("hcp_name", "Dr. B")]] ∧
    (([[("hcp_id", "HCP1"), ("hcp_name", "Dr. A")],
       [("hcp_id", "HCP2"), ("hcp_name", "Dr. B")]] : List Row).length =
        (nonBlankLines "hcp_id,hcp_name\nHCP1,Dr. A\nHCP2,Dr. B").length - 1 ∧
      (∀ i, ∀ hi : i < ([[("hcp_id", "HCP1"), ("hcp_name", "Dr. A")],
            [("hcp_id", "HCP2"), ("hcp_name", "Dr. B")]] : List Row).length,
          ∀ hj : i < ((nonBlankLines "hcp_id,hcp_name\nHCP1,Dr. A\nHCP2,Dr. B").drop 1).length,
          ([[("hcp_id", "HCP1"), ("hcp_name", "Dr. A")],
            [("hcp_id", "HCP2"), ("hcp_name", "Dr. B")]] : List Row).get ⟨i, hi⟩ =
            buildRow
              (splitFields ((nonBlankLines "hcp_id,hcp_name\nHCP1,Dr. A\nHCP2,Dr. B").headD []))
              (splitFields (((nonBlankLines "hcp_id,hcp_name\nHCP1,Dr. A\nHCP2,Dr. B").drop 1).get ⟨i, hj⟩))) ∧
      (∀ r ∈ ([[("hcp_id", "HCP1"), ("hcp_name", "Dr. A")],
            [("hcp_id", "HCP2"), ("hcp_name", "Dr. B")]] : List Row),
          ∀ k ∈ splitFields ((nonBlankLines "hcp_id,hcp_name\nHCP1,Dr. A\nHCP2,Dr. B").headD []),
          (rowGet r k).isSome)) :=
  ⟨rfl, parser_row_count_order_keys "hcp_id,hcp_name\nHCP1,Dr. A\nHCP2,Dr. B" _ rfl⟩

/-- C7: any input with fewer than 2 non-blank lines (empty file, or a
header with zero data lines) is rejected with `MalformedFile`. -/
theorem parser_rejects_short_input (text : String)
    (h : (nonBlankLines text).length < 2) :
    parseCsvText text = Except.error ParseError.MalformedFile := by
  unfold parseCsvText
  simp [h]

/-- C7 witness: a header-only file (with a trailing blank line). -/
theorem parser_rejects_short_input_witness :
    (nonBlankLines "hcp_id,hcp_name\n  \n").length < 2 ∧
    parseCsvText "hcp_id,hcp_name\n  \n" = Except.error ParseError.MalformedFile :=
  ⟨by decide, parser_rejects_short_input "hcp_id,hcp_name\n  \n" (by decide)⟩

/-- C8: a row-mapping has exactly one entry per header; when the data
line is shorter than the header, the entries for the missing trailing
header keys carry the empty string; fields beyond the header count are
dropped (the row built from the full value list equals the row built
from the values truncated to the header count). -/
theorem row_padding_and_truncation (headers vals : List String) :
    (buildRow headers vals).length = headers.length ∧
    (∀ i, i < headers.length → vals.length ≤ i →
        (buildRow headers vals).getD i ("", "") = (headers.getD i "", "")) ∧
    buildRow headers vals = buildRow headers (vals.take headers.length) :=
  ⟨buildRow_length headers vals,
   fun i hi hv => buildRow_getD_missing headers vals i hi hv,
   buildRow_take headers vals⟩

/-- C8 witness: three headers against a single-field line, and four
fields against two headers. -/
theorem row_padding_and_truncation_witness :
    ((buildRow ["a", "b", "c"] ["1"]).length = (["a", "b", "c"] : List String).length ∧
      (2 < (["a", "b", "c"] : List String).length ∧ (["1"] : List String).length ≤ 2 ∧
        (buildRow ["a", "b", "c"] ["1"]).getD 2 ("", "") = ((["a", "b", "c"] : List String).getD 2 "", "")) ∧
      buildRow ["a", "b", "c"] ["1"] = buildRow ["a", "b", "c"] (["1"].take 3)) ∧
    buildRow ["a", "b"] ["1", "2", "3", "4"] = buildRow ["a", "b"] (["1", "2", "3", "4"].take 2) :=
  ⟨⟨(row_padding_and_truncation ["a", "b", "c"] ["1"]).1,
    ⟨by decide, by decide,
     (row_padding_and_truncation ["a", "b", "c"] ["1"]).2.1 2 (by decide) (by decide)⟩,
    (row_padding_and_truncation ["a", "b", "c"] ["1"]).2.2⟩,
   (row_padding_and_truncation ["a", "b"] ["1", "2", "3", "4"]).2.2⟩

/- ============ claim theorems: per-row import orchestration ============ -/

theorem countOk_le (server : Nat → RowResp) (start n : Nat) :
    countOk server start n ≤ n := by
  induction n generalizing start with
  | zero => simp [countOk]
  | succ n ih =>
    have := ih (start + 1)
    by_cases h : server start = RowResp.ok <;> simp [countOk, h] <;> omega

theorem countOk_add (server : Nat → RowResp) (start a b : Nat) :
    countOk server start (a + b) = countOk server start a + countOk server (start + a) b := by
  induction a generalizing start with
  | zero => simp [countOk]
  | succ a ih =>
    have h1 : a + 1 + b = (a + b) + 1 := by omega
    have h2 : start + 1 + a = start + (a + 1) := by omega
    rw [h1]
    simp only [countOk]
    rw [ih (start + 1), h2]
    omega

theorem countOk_all_ok (server : Nat → RowResp) (start n : Nat)
    (h : ∀ i, i < n → server (start + i) = RowResp.ok) :
    countOk server start n = n := by
  induction n generalizing start with
  | zero => simp [countOk]
  | succ n ih =>
    have h0 : server start = RowResp.ok := by simpa using h 0 (by omega)
    have ih1 : countOk server (start + 1) n = n := by
      refine ih (start + 1) (fun i hi => ?_)
      have := h (i + 1) (by omega)
      rwa [show start + (i + 1) = start + 1 + i from by omega] at this
    simp [countOk, h0, ih1, Nat.add_comm]

theorem countOk_one_fail (server : Nat → RowResp) (n j : Nat)
    (hj : j < n) (hfail : server j ≠ RowResp.ok)
    (hok : ∀ i, i < n → i ≠ j → server i = RowResp.ok) :
    countOk server 0 n = n - 1 := by
  have hn : n = j + (1 + (n - j - 1)) := by omega
  have hsplit1 : countOk server 0 (j + (1 + (n - j - 1))) =
      countOk server 0 j + countOk server j (1 + (n - j - 1)) := by
    have := countOk_add server 0 j (1 + (n - j - 1))
    simpa using this
  have hsplit2 : countOk server j (1 + (n - j - 1)) =
      countOk server j 1 + countOk server (j + 1) (n - j - 1) :=
    countOk_add server j 1 (n - j - 1)
  have hlow : countOk server 0 j = j := by
    refine countOk_all_ok server 0 j (fun i hi => ?_)
    simpa using hok i (by omega) (by omega)
  have hmid : countOk server j 1 = 0 := by
    simp [countOk, hfail]
  have hhigh : countOk server (j + 1) (n - j - 1) = n - j - 1 := by
    refine countOk_all_ok server (j + 1) (n - j - 1) (fun i hi => ?_)
    exact hok (j + 1 + i) (by omega) (by omega)
  rw [hn, hsplit1, hsplit2, hlow, hmid, hhigh]
  omega

theorem csv_foldl_submitted (token : Option String) (tableName : String)
    (server : Nat → RowResp) (rows : List Row) (t : Tally) (reqs : List HttpRequest)
    (h : ∀ r ∈ rows, stripEmpty r ≠ []) :
    (rows.foldl (csvStep token tableName server) (t, reqs)).1.success
        = t.success + countOk server reqs.length rows.length ∧
    (rows.foldl (csvStep token tableName server) (t, reqs)).1.error
        = t.error + (rows.length - countOk server reqs.length rows.length) ∧
    (rows.foldl (csvStep token tableName server) (t, reqs)).2.length
        = reqs.length + rows.length := by
  induction rows generalizing t reqs with
  | nil => simp [countOk]
  | cons r rest ih =>
    have hr : stripEmpty r ≠ [] := h r (by simp)
    have hrest : ∀ x ∈ rest, stripEmpty x ≠ [] := fun x hx => h x (by simp [hx])
    have hlen : ¬(stripEmpty r).length = 0 := by
      simpa [List.length_eq_zero] using hr
    have hc := countOk_le server (reqs.length + 1) rest.length
    have hcons : (r :: rest).foldl (csvStep token tableName server) (t, reqs)
        = rest.foldl (csvStep token tableName server)
            (csvStep token tableName server (t, reqs) r) := rfl
    rcases hsrv : server reqs.length with _ | _ | _
    · have hstep : csvStep token tableName server (t, reqs) r =
          (⟨t.success + 1, t.error⟩, reqs ++ [postEntryRequest token tableName (stripEmpty r)]) := by
        simp [csvStep, hlen, hsrv]
      obtain ⟨ih1, ih2, ih3⟩ := ih ⟨t.success + 1, t.error⟩
        (reqs ++ [postEntryRequest token tableName (stripEmpty r)]) hrest
      rw [show (reqs ++ [postEntryRequest token tableName (stripEmpty r)]).length
            = reqs.length + 1 from by simp] at ih1 ih2 ih3
      rw [hcons, hstep]
      refine ⟨?_, ?_, ?_⟩
      · rw [ih1]; simp [countOk, hsrv]; omega
      · rw [ih2]; simp [countOk, hsrv]; omega
      · rw [ih3]; simp; omega
    · have hstep : csvStep token tableName server (t, reqs) r =
          (⟨t.success, t.error + 1⟩, reqs ++ [postEntryRequest token tableName (stripEmpty r)]) := by
        simp [csvStep, hlen, hsrv]
      obtain ⟨ih1, ih2, ih3⟩ := ih ⟨t.success, t.error + 1⟩
        (reqs ++ [postEntryRequest token tableName (stripEmpty r)]) hrest
      rw [show (reqs ++ [postEntryRequest token tableName (stripEmpty r)]).length
            = reqs.length + 1 from by simp] at ih1 ih2 ih3
      rw [hcons, hstep]
      refine ⟨?_, ?_, ?_⟩
      · rw [ih1]; simp [countOk, hsrv]
      · rw [ih2]; simp [countOk, hsrv]; omega
      · rw [ih3]; simp; omega
    · have hstep : csvStep token tableName server (t, reqs) r =
          (⟨t.success, t.error + 1⟩, reqs ++ [postEntryRequest token tableName (stripEmpty r)]) := by
        simp [csvStep, hlen, hsrv]
      obtain ⟨ih1, ih2, ih3⟩ := ih ⟨t.success, t.error + 1⟩
        (reqs ++ [postEntryRequest token tableName (stripEmpty r)]) hrest
      rw [show (reqs ++ [postEntryRequest token tableName (stripEmpty r)]).length
            = reqs.length + 1 from by simp] at ih1 ih2 ih3
      rw [hcons, hstep]
      refine ⟨?_, ?_, ?_⟩
      · rw [ih1]; simp [countOk, hsrv]
      · rw [ih2]; simp [countOk, hsrv]; omega
      · rw [ih3]; simp; omega

/-- C2: in the per-row CSV import (no list-scope id), when every parsed
row survives empty-field stripping and exactly one of the N issued
create requests fails (a non-ok response or a thrown error, which is
caught), the final tally is exactly 1 failure and N−1 successes, and the
batch is never aborted early: all N rows are processed and all N
requests are issued. -/
theorem csv_import_single_failure (token : Option String) (tableName : String)
    (server : Nat → RowResp) (rows : List Row) (j : Nat)
    (hsub : ∀ r ∈ rows, stripEmpty r ≠ [])
    (hj : j < rows.length)
    (hfail : server j ≠ RowResp.ok)
    (hok : ∀ i, i < rows.length → i ≠ j → server i = RowResp.ok) :
    (handleCsvPerRow token tableName server rows).1.error = 1 ∧
    (handleCsvPerRow token tableName server rows).1.success = rows.length - 1 ∧
    (handleCsvPerRow token tableName server rows).2.length = rows.length := by
  obtain ⟨h1, h2, h3⟩ :=
    csv_foldl_submitted token tableName server rows ⟨0, 0⟩ [] hsub
  have hcnt : countOk server 0 rows.length = rows.length - 1 :=
    countOk_one_fail server rows.length j hj hfail hok
  unfold handleCsvPerRow
  simp only [List.length_nil] at h1 h2 h3
  rw [h1, h2, h3, hcnt]
  refine ⟨by omega, by omega, by omega⟩

/-- C2 witness: two rows, the second request returns a non-ok status. -/
theorem csv_import_single_failure_witness :
    (∀ r ∈ ([[("a", "1")], [("a", "2")]] : List Row), stripEmpty r ≠ []) ∧
    1 < ([[("a", "1")], [("a", "2")]] : List Row).length ∧
    (fun i => if i = 1 then RowResp.notOk else RowResp.ok) 1 ≠ RowResp.ok ∧
    (handleCsvPerRow none "target_list"
        (fun i => if i = 1 then RowResp.notOk else RowResp.ok)
        [[("a", "1")], [("a", "2")]]).1.error = 1 ∧
    (handleCsvPerRow none "target_list"
        (fun i => if i = 1 then RowResp.notOk else RowResp.ok)
        [[("a", "1")], [("a", "2")]]).1.success =
      ([[("a", "1")], [("a", "2")]] : List Row).length - 1 ∧
    (handleCsvPerRow none "target_list"
        (fun i => if i = 1 then RowResp.notOk else RowResp.ok)
        [[("a", "1")], [("a", "2")]]).2.length =
      ([[("a", "1")], [("a", "2")]] : List Row).length := by
  have h := csv_import_single_failure none "target_list"
      (fun i => if i = 1 then RowResp.notOk else RowResp.ok)
      [[("a", "1")], [("a", "2")]] 1
      (by decide) (by decide) (by decide)
      (by decide)
  exact ⟨by decide, by decide, by decide, h.1, h.2.1, h.2.2⟩

theorem csv_foldl_counts (token : Option String) (tableName : String)
    (server : Nat → RowResp) (rows : List Row) (t : Tally) (reqs : List HttpRequest) :
    (rows.foldl (csvStep token tableName server) (t, reqs)).2.length
        = reqs.length + rows.countP (fun r => !(stripEmpty r).isEmpty) ∧
    (rows.foldl (csvStep token tableName server) (t, reqs)).1.success
          + (rows.foldl (csvStep token tableName server) (t, reqs)).1.error
        = t.success + t.error + rows.length ∧
    t.error + rows.countP (fun r => (stripEmpty r).isEmpty)
        ≤ (rows.foldl (csvStep token tableName server) (t, reqs)).1.error := by
  induction rows generalizing t reqs with
  | nil => simp
  | cons r rest ih =>
    have hcons : (r :: rest).foldl (csvStep token tableName server) (t, reqs)
        = rest.foldl (csvStep token tableName server)
            (csvStep token tableName server (t, reqs) r) := rfl
    by_cases hr : (stripEmpty r).isEmpty
    · have hlen : (stripEmpty r).length = 0 := by
        simpa [List.isEmpty_iff, List.length_eq_zero] using hr
      have hstep : csvStep token tableName server (t, reqs) r =
          (⟨t.success, t.error + 1⟩, reqs) := by
        simp [csvStep, hlen]
      obtain ⟨ih1, ih2, ih3⟩ := ih ⟨t.success, t.error + 1⟩ reqs
      rw [hcons, hstep]
      refine ⟨?_, ?_, ?_⟩
      · rw [ih1]; simp [List.countP_cons, hr]
      · rw [ih2]; simp; omega
      · rw [List.countP_cons]
        have ih3a : t.error + 1 + rest.countP (fun x => (stripEmpty x).isEmpty)
            ≤ (rest.foldl (csvStep token tableName server)
                (⟨t.success, t.error + 1⟩, reqs)).1.error := ih3
        simp only [hr, if_pos]
        omega
    · have hlen : ¬(stripEmpty r).length = 0 := by
        simp only [List.isEmpty_iff] at hr
        simpa [List.length_eq_zero] using hr
      have hrB : (stripEmpty r).isEmpty = false := by
        simpa using hr
      rcases hsrv : server reqs.length with _ | _ | _
      · have hstep : csvStep token tableName server (t, reqs) r =
            (⟨t.success + 1, t.error⟩, reqs ++ [postEntryRequest token tableName (stripEmpty r)]) := by
          simp [csvStep, hlen, hsrv]
        obtain ⟨ih1, ih2, ih3⟩ := ih ⟨t.success + 1, t.error⟩
          (reqs ++ [postEntryRequest token tableName (stripEmpty r)])
        rw [hcons, hstep]
        refine ⟨?_, ?_, ?_⟩
        · rw [ih1]; simp [List.countP_cons, hrB]; omega
        · rw [ih2]; simp; omega
        · rw [List.countP_cons]
          simp only [hrB, if_neg]
          simpa using ih3
      · have hstep : csvStep token tableName server (t, reqs) r =
            (⟨t.success, t.error + 1⟩, reqs ++ [postEntryRequest token tableName (stripEmpty r)]) := by
          simp [csvStep, hlen, hsrv]
        obtain ⟨ih1, ih2, ih3⟩ := ih ⟨t.success, t.error + 1⟩
          (reqs ++ [postEntryRequest token tableName (stripEmpty r)])
        rw [hcons, hstep]
        refine ⟨?_, ?_, ?_⟩
        · rw [ih1]; simp [List.countP_cons, hrB]; omega
        · rw [ih2]; simp; omega
        · rw [List.countP_cons]
          simp only [hrB, if_neg]
          have hmono : t.error + rest.countP (fun x => (stripEmpty x).isEmpty)
              ≤ (t.error + 1) + rest.countP (fun x => (stripEmpty x).isEmpty) := by omega
          calc t.error + rest.countP (fun x => (stripEmpty x).isEmpty) + 0
              = t.error + rest.countP (fun x => (stripEmpty x).isEmpty) := by omega
            _ ≤ (t.error + 1) + rest.countP (fun x => (stripEmpty x).isEmpty) := hmono
            _ ≤ _ := by simpa using ih3
      · have hstep : csvStep token tableName server (t, reqs) r =
            (⟨t.success, t.error + 1⟩, reqs ++ [postEntryRequest token tableName (stripEmpty r)]) := by
          simp [csvStep, hlen, hsrv]
        obtain ⟨ih1, ih2, ih3⟩ := ih ⟨t.success, t.error + 1⟩
          (reqs ++ [postEntryRequest token tableName (stripEmpty r)])
        rw [hcons, hstep]
        refine ⟨?_, ?_, ?_⟩
        · rw [ih1]; simp [List.countP_cons, hrB]; omega
        · rw [ih2]; simp; omega
        · rw [List.countP_cons]
          simp only [hrB, if_neg]
          have hmono : t.error + rest.countP (fun x => (stripEmpty x).isEmpty)
              ≤ (t.error + 1) + rest.countP (fun x => (stripEmpty x).isEmpty) := by omega
          calc t.error + rest.countP (fun x => (stripEmpty x).isEmpty) + 0
              = t.error + rest.countP (fun x => (stripEmpty x).isEmpty) := by omega
            _ ≤ (t.error + 1) + rest.countP (fun x => (stripEmpty x).isEmpty) := hmono
            _ ≤ _ := by simpa using ih3

/-- C10: in the per-row import, a request is issued exactly for the rows
that survive empty-field stripping (so an all-empty row is never
submitted), yet every row is accounted for in the tally, the all-empty
rows are counted among the failures, and whenever at least one all-empty
row exists the completion message is the partial-success warning that
names the failure count (the row is not silently skipped). -/
theorem csv_import_empty_row_counted (token : Option String) (tableName : String)
    (server : Nat → RowResp) (rows : List Row) :
    (handleCsvPerRow token tableName server rows).2.length
        = rows.countP (fun r => !(stripEmpty r).isEmpty) ∧
    (handleCsvPerRow token tableName server rows).1.success
          + (handleCsvPerRow token tableName server rows).1.error = rows.length ∧
    rows.countP (fun r => (stripEmpty r).isEmpty)
        ≤ (handleCsvPerRow token tableName server rows).1.error ∧
    ((∃ r ∈ rows, stripEmpty r = []) →
        0 < (handleCsvPerRow token tableName server rows).1.error ∧
        (completionToast (handleCsvPerRow token tableName server rows).1).2 =
          ToastType.warning) := by
  obtain ⟨h1, h2, h3⟩ :=
    csv_foldl_counts token tableName server rows ⟨0, 0⟩ []
  unfold handleCsvPerRow
  simp only [List.length_nil, Nat.zero_add] at h1 h2 h3
  refine ⟨h1, h2, h3, fun hex => ?_⟩
  have hpos : 0 < rows.countP (fun r => (stripEmpty r).isEmpty) := by
    rw [List.countP_pos_iff]
    obtain ⟨r, hr, hempty⟩ := hex
    exact ⟨r, hr, by simp [hempty]⟩
  have herr : 0 < (rows.foldl (csvStep token tableName server) (⟨0, 0⟩, [])).1.error := by
    omega
  refine ⟨herr, ?_⟩
  simp [completionToast, herr]

/-- C10 witness: one all-empty row and one real row; the server accepts
everything it is sent. -/
theorem csv_import_empty_row_counted_witness :
    (handleCsvPerRow none "target_list" (fun _ => RowResp.ok)
        [[("a", "  ")], [("b", "x")]]).2.length
      = ([[("a", "  ")], [("b", "x")]] : List Row).countP (fun r => !(stripEmpty r).isEmpty) ∧
    (handleCsvPerRow none "target_list" (fun _ => RowResp.ok)
        [[("a", "  ")], [("b", "x")]]).1.success
      + (handleCsvPerRow none "target_list" (fun _ => RowResp.ok)
        [[("a", "  ")], [("b", "x")]]).1.error
      = ([[("a", "  ")], [("b", "x")]] : List Row).length ∧
    ([[("a", "  ")], [("b", "x")]] : List Row).countP (fun r => (stripEmpty r).isEmpty)
      ≤ (handleCsvPerRow none "target_list" (fun _ => RowResp.ok)
        [[("a", "  ")], [("b", "x")]]).1.error ∧
    (0 < (handleCsvPerRow none "target_list" (fun _ => RowResp.ok)
        [[("a", "  ")], [("b", "x")]]).1.error ∧
      (completionToast (handleCsvPerRow none "target_list" (fun _ => RowResp.ok)
        [[("a", "  ")], [("b", "x")]]).1).2 = ToastType.warning) := by
  have h := csv_import_empty_row_counted none "target_list" (fun _ => RowResp.ok)
      [[("a", "  ")], [("b", "x")]]
  exact ⟨h.1, h.2.1, h.2.2.1, h.2.2.2 (by decide)⟩

/-- C6: a manual save whose record has no field left after
empty-after-trim stripping issues zero requests, reports the
fill-in-at-least-one-field warning, and leaves `isAdding`, `addMode` and
the in-progress record unchanged. -/
theorem manual_save_empty_record (token : Option String) (tableName : String)
    (server : HttpRequest → ServerResp) (st : EntryState)
    (hempty : stripEmpty st.formData = []) :
    (handleSave token tableName server st).2 = [] ∧
    (handleSave token tableName server st).1.formData = st.formData ∧
    (handleSave token tableName server st).1.addMode = st.addMode ∧
    (handleSave token tableName server st).1.isAdding = st.isAdding ∧
    (handleSave token tableName server st).1.toast =
      some ("Please fill in at least one field", ToastType.warning) := by
  unfold handleSave
  simp [hempty]

/-- C6 witness: a manual-entry state whose only field is blank after
trimming. -/
theorem manual_save_empty_record_witness :
    stripEmpty (EntryState.mk true (some AddMode.manual) [("hcp_name", "  ")] none).formData = [] ∧
    ((handleSave none "target_list" (fun _ => ServerResp.ok)
        (EntryState.mk true (some AddMode.manual) [("hcp_name", "  ")] none)).2 = [] ∧
      (handleSave none "target_list" (fun _ => ServerResp.ok)
        (EntryState.mk true (some AddMode.manual) [("hcp_name", "  ")] none)).1.formData =
        (EntryState.mk true (some AddMode.manual) [("hcp_name", "  ")] none).formData ∧
      (handleSave none "target_list" (fun _ => ServerResp.ok)
        (EntryState.mk true (some AddMode.manual) [("hcp_name", "  ")] none)).1.addMode =
        (EntryState.mk true (some AddMode.manual) [("hcp_name", "  ")] none).addMode ∧
      (handleSave none "target_list" (fun _ => ServerResp.ok)
        (EntryState.mk true (some AddMode.manual) [("hcp_name", "  ")] none)).1.isAdding =
        (EntryState.mk true (some AddMode.manual) [("hcp_name", "  ")] none).isAdding ∧
      (handleSave none "target_list" (fun _ => ServerResp.ok)
        (EntryState.mk true (some AddMode.manual) [("hcp_name", "  ")] none)).1.toast =
        some ("Please fill in at least one field", ToastType.warning)) :=
  ⟨by decide,
   manual_save_empty_record none "target_list" (fun _ => ServerResp.ok)
     (EntryState.mk true (some AddMode.manual) [("hcp_name", "  ")] none) (by decide)⟩

/- ======= claim theorems: field quoting, auth, table lookup, samples ======= -/

theorem stripLead_of_head_ne (c : Char) (cs : List Char) (hc : c ≠ '"') :
    stripLead (c :: cs) = c :: cs := by
  unfold stripLead
  split
  · next rest heq =>
      injection heq with h1 h2
      exact absurd h1 hc
  · rfl

/-- Modelled from the amended claim for the field transform: the field is
trimmed; then a single leading double quote, if present, is removed, and
a single trailing double quote of the remainder, if present, is removed.
The two removals are independent of each other, so an unpaired leading or
trailing quote is removed as well. -/
def amendedCleanField (s : String) : String :=
  let t := trimChars s.data
  let t1 := if t.headD ' ' = '"' then t.drop 1 else t
  let t2 := if t1.getLast? = some '"' then t1.dropLast else t1
  ⟨t2⟩

/-- C3 counterexample: the claim says an unpaired surrounding quote is
left intact, but the transform of `parseCsvFile` strips it — the field
`"abc` (unpaired leading quote) becomes `abc`, and `abc"` (unpaired
trailing quote) becomes `abc`. -/
theorem field_quote_strip_counterexample :
    cleanField "\"abc" = "abc" ∧ ¬cleanField "\"abc" = "\"abc" ∧
    cleanField "abc\"" = "abc" ∧ ¬cleanField "abc\"" = "abc\"" :=
  ⟨by decide, by decide, by decide, by decide⟩

/-- C3 amended: every field is trimmed and then stripped of at most one
leading and at most one trailing double quote, each independently of the
other (unpaired quotes are removed too). -/
theorem field_quote_strip_amended (s : String) :
    cleanField s = amendedCleanField s := by
  simp only [cleanField, amendedCleanField]
  cases h : trimChars s.data with
  | nil => rfl
  | cons c cs =>
    by_cases hc : c = '"'
    · subst hc
      rfl
    · rw [stripLead_of_head_ne c cs hc]
      have hd : (c :: cs).headD ' ' = c := rfl
      rw [hd, if_neg hc]
      rfl

/-- C4: code-bug evidence.  For a subdomain name absent from the lookup,
`getEntryTableName` resolves to `none` ("unknown"), the fetch and delete
paths of the domain view refuse to proceed, and the claim (with the
spec's invariant) says the import flow must refuse as well; but the
domain view passes `getEntryTableName(...) || ''` as the table name and
`handleSave` has no guard on it, so a manual save of a non-empty record
still issues a create request — to the collection-less URL
`http://localhost:8000/api/`. -/
theorem unknown_subdomain_issues_request :
    getEntryTableName "Regional Payer Lists" = none ∧
    (handleSave none (domainViewTableNameProp "Regional Payer Lists")
        (fun _ => ServerResp.ok)
        (EntryState.mk true (some AddMode.manual) [("hcp_id", "HCP1")] none)).2 =
      [HttpRequest.mk "http://localhost:8000/api/"
        [("Content-Type", "application/json")] [("hcp_id", "HCP1")]] :=
  ⟨by decide, by decide⟩

/-- C5 counterexample: with a bearer token present in local storage, the
manual-save request issued by `handleSave` (built with raw `fetch`, not
the axios client) carries no Authorization header at all. -/
theorem auth_header_counterexample :
    (handleSave (some "tok") "target_list" (fun _ => ServerResp.ok)
        (EntryState.mk true (some AddMode.manual) [("hcp_id", "HCP1")] none)).2 =
      [postEntryRequest (some "tok") "target_list" [("hcp_id", "HCP1")]] ∧
    ¬"Authorization" ∈ (postEntryRequest (some "tok") "target_list"
        [("hcp_id", "HCP1")]).headers.map Prod.fst :=
  ⟨by decide, by decide⟩

/-- C5 amended: requests issued through the shared axios client carry
`Authorization: Bearer token` whenever a token is in local storage (and
are unchanged when none is); the manual-save and per-row CSV import
requests carry exactly a Content-Type header, and the list-scoped
bulk-upload request carries no headers, regardless of the stored
token — none of the raw-fetch requests ever gets an Authorization
header. -/
theorem auth_header_amended (t : String) (req : HttpRequest) (tok : Option String)
    (tableName : String) (data : List (String × String)) (listId : Nat) :
    ("Authorization", "Bearer " ++ t) ∈ (axiosAttachAuth (some t) req).headers ∧
    axiosAttachAuth none req = req ∧
    (postEntryRequest tok tableName data).headers.map Prod.fst = ["Content-Type"] ∧
    (bulkUploadRequest tok listId).headers = [] := by
  refine ⟨?_, rfl, rfl, rfl⟩
  simp [axiosAttachAuth, setHeader]

/-- C9: rendering the sample CSV is deterministic and idempotent — for
any list type in the catalog, rendering twice yields byte-identical
text (rendering is a pure function of the static catalog) — and the
"Call Lists" sample's first line is the static five-column header. -/
theorem render_sample_idempotent (listType : String)
    (h : (CSV_TEMPLATES listType).isSome) :
    renderSample listType = renderSample listType ∧
    (renderSample listType).isSome ∧
    (renderSample "Call Lists").map firstLine =
      some "hcp_id,hcp_name,call_date,sales_rep,status" :=
  ⟨rfl, by simpa [renderSample] using h, by rfl⟩

/-- C9 witness: the "Call Lists" entry of the catalog. -/
theorem render_sample_idempotent_witness :
    (CSV_TEMPLATES "Call Lists").isSome ∧
    (renderSample "Call Lists" = renderSample "Call Lists" ∧
      (renderSample "Call Lists").isSome ∧
      (renderSample "Call Lists").map firstLine =
        some "hcp_id,hcp_name,call_date,sales_rep,status") :=
  ⟨by decide, render_sample_idempotent "Call Lists" (by decide)⟩

end Pharma
